import Mathlib

/-!
Verification of the WabashRiverStage analytical core against its
natural-language specification.

The development shallowly embeds the three analytical components of the
repository:

* the lag estimator `calculate_cross_correlation`
  (src/correlation_model/02_correlation_analysis.py),
* the regression model `fit_linear_model` and the per-regime evaluation
  `analyze_model_performance_by_stage` (same file),
* the forecast propagator `estimate_hutsonville_stage` /
  `generate_forecast_points` (src/generate_hutsonville_forecast.py).

Python floats are idealised as real numbers; timestamps are rationals
measured in hours (duration arithmetic on `datetime` values is exact, and
timezone normalisation only affects rendering, which is out of scope).
Python's `round(x, 2)` (banker's rounding to two decimals) is embedded as
`round2` below.  Fallible code is embedded in `Option`/`Except`: a Python
function that raises an uncaught exception maps to `Except.error`, one that
returns an "unavailable" sentinel maps to `none` / an empty list.
-/

/-- Round half to even, Python's `round` tie-breaking rule, over any
linearly ordered field with a floor. -/
def roundHalfEven {α : Type} [LinearOrderedField α] [FloorRing α] (x : α) : ℤ :=
  if x - (⌊x⌋ : α) < 1/2 then ⌊x⌋
  else if (1/2 : α) < x - (⌊x⌋ : α) then ⌊x⌋ + 1
  else if Even ⌊x⌋ then ⌊x⌋ else ⌊x⌋ + 1

/-- Python's `round(x, 2)`: scale by 100, round half to even, scale back. -/
def round2 {α : Type} [LinearOrderedField α] [FloorRing α] (x : α) : α :=
  (roundHalfEven (x * 100) : α) / 100

theorem roundHalfEven_ratCast (q : ℚ) :
    roundHalfEven ((q : ℝ)) = roundHalfEven q := by
  have hfl : ⌊(q : ℝ)⌋ = ⌊q⌋ := Rat.floor_cast q
  have e : (q : ℝ) - ((⌊q⌋ : ℤ) : ℝ) = ((q - (⌊q⌋ : ℚ) : ℚ) : ℝ) := by push_cast; ring
  have hhalf : (1/2 : ℝ) = ((1/2 : ℚ) : ℝ) := by norm_num
  have k1 : ((q : ℝ) - ((⌊q⌋ : ℤ) : ℝ) < 1/2) ↔ (q - (⌊q⌋ : ℚ) < 1/2) := by
    rw [e, hhalf]; exact Rat.cast_lt
  have k2 : ((1/2 : ℝ) < (q : ℝ) - ((⌊q⌋ : ℤ) : ℝ)) ↔ ((1/2 : ℚ) < q - (⌊q⌋ : ℚ)) := by
    rw [e, hhalf]; exact Rat.cast_lt
  rw [roundHalfEven, roundHalfEven, hfl]
  by_cases h1 : q - (⌊q⌋ : ℚ) < 1/2
  · rw [if_pos (k1.mpr h1), if_pos h1]
  · rw [if_neg (fun hc => h1 (k1.mp hc)), if_neg h1]
    by_cases h2 : (1/2 : ℚ) < q - (⌊q⌋ : ℚ)
    · rw [if_pos (k2.mpr h2), if_pos h2]
    · rw [if_neg (fun hc => h2 (k2.mp hc)), if_neg h2]

theorem round2_ratCast (q : ℚ) : round2 ((q : ℝ)) = ((round2 q : ℚ) : ℝ) := by
  rw [round2, round2]
  have h : (q : ℝ) * 100 = ((q * 100 : ℚ) : ℝ) := by push_cast; ring
  rw [h, roundHalfEven_ratCast]
  push_cast
  ring

theorem le_roundHalfEven {α : Type} [LinearOrderedField α] [FloorRing α]
    (x : α) : ⌊x⌋ ≤ roundHalfEven x := by
  rw [roundHalfEven]
  split_ifs <;> omega

theorem roundHalfEven_le {α : Type} [LinearOrderedField α] [FloorRing α]
    (x : α) : roundHalfEven x ≤ ⌊x⌋ + 1 := by
  rw [roundHalfEven]
  split_ifs <;> omega

theorem roundHalfEven_mono {α : Type} [LinearOrderedField α] [FloorRing α]
    {x y : α} (h : x ≤ y) : roundHalfEven x ≤ roundHalfEven y := by
  rcases lt_or_eq_of_le (Int.floor_mono h) with hlt | heq
  · calc roundHalfEven x ≤ ⌊x⌋ + 1 := roundHalfEven_le x
      _ ≤ ⌊y⌋ := by omega
      _ ≤ roundHalfEven y := le_roundHalfEven y
  · rw [roundHalfEven, roundHalfEven, ← heq]
    have hxy : x - (⌊x⌋ : α) ≤ y - (⌊x⌋ : α) := by linarith
    split_ifs <;> first | omega | linarith

theorem round2_mono {α : Type} [LinearOrderedField α] [FloorRing α]
    {x y : α} (h : x ≤ y) : round2 x ≤ round2 y := by
  rw [round2, round2]
  have hm : roundHalfEven (x * 100) ≤ roundHalfEven (y * 100) :=
    roundHalfEven_mono (by linarith)
  have : ((roundHalfEven (x * 100) : ℤ) : α) ≤ ((roundHalfEven (y * 100) : ℤ) : α) := by
    exact_mod_cast hm
  linarith

/-- Python's `max(...)` over a list of floats; the source never applies it to
an empty list, where this returns the junk value 0. -/
def listMax : List ℝ → ℝ
  | [] => 0
  | x :: xs => xs.foldl max x

theorem le_foldl_max (xs : List ℝ) (a : ℝ) : a ≤ xs.foldl max a := by
  induction xs generalizing a with
  | nil => simp
  | cons x xs ih => exact le_trans (le_max_left a x) (ih (max a x))

theorem le_foldl_max_of_mem {xs : List ℝ} {y : ℝ} (hy : y ∈ xs) (a : ℝ) :
    y ≤ xs.foldl max a := by
  induction xs generalizing a with
  | nil => cases hy
  | cons x xs ih =>
    rcases List.mem_cons.mp hy with rfl | h
    · exact le_trans (le_max_right a y) (le_foldl_max xs (max a y))
    · exact ih h (max a x)

theorem foldl_max_mem (xs : List ℝ) (a : ℝ) : xs.foldl max a = a ∨ xs.foldl max a ∈ xs := by
  induction xs generalizing a with
  | nil => left; rfl
  | cons x xs ih =>
    rw [List.foldl_cons]
    rcases ih (max a x) with h | h
    · rcases max_choice a x with hm | hm
      · left; rw [h, hm]
      · right; rw [h, hm]; exact List.mem_cons_self x xs
    · right; exact List.mem_cons_of_mem x h

theorem le_listMax_of_mem {l : List ℝ} {y : ℝ} (hy : y ∈ l) : y ≤ listMax l := by
  cases l with
  | nil => cases hy
  | cons x xs =>
    rcases List.mem_cons.mp hy with rfl | h
    · exact le_foldl_max xs y
    · exact le_foldl_max_of_mem h x

theorem listMax_mem {l : List ℝ} (h : l ≠ []) : listMax l ∈ l := by
  cases l with
  | nil => exact absurd rfl h
  | cons x xs =>
    rcases foldl_max_mem xs x with hm | hm
    · rw [listMax, hm]; exact List.mem_cons_self x xs
    · exact List.mem_cons_of_mem x hm

/-- `np.argmax`: the index of the first occurrence of the maximum value of
the list (ties are resolved towards the smallest index). -/
noncomputable def npArgmax (l : List ℝ) : ℕ :=
  l.findIdx (fun x => decide (x = listMax l))

theorem npArgmax_lt_length {l : List ℝ} (h : l ≠ []) : npArgmax l < l.length :=
  List.findIdx_lt_length_of_exists ⟨listMax l, listMax_mem h, by simp⟩

theorem npArgmax_get {l : List ℝ} (h : npArgmax l < l.length) :
    l.get ⟨npArgmax l, h⟩ = listMax l := by
  have := List.findIdx_getElem (w := h)
  simpa [List.get_eq_getElem] using this

theorem ne_listMax_of_lt_npArgmax {l : List ℝ} {j : ℕ} (hj : j < npArgmax l)
    (hlen : j < l.length) : l.get ⟨j, hlen⟩ ≠ listMax l := by
  have := List.not_of_lt_findIdx (p := fun x => decide (x = listMax l)) hj
  simpa using this

/-- A time series as the external collectors hand it to the core: a list of
(timestamp, possibly missing value) rows.  Timestamps are integers (the data
model requires them strictly increasing; daily dates in the source). -/
abbrev TimeSeries := List (ℤ × Option ℝ)

/-- Index lookup on a series, as pandas joins rows by index label. -/
def tsFind (t : ℤ) (l : TimeSeries) : Option (Option ℝ) :=
  (l.find? (fun q => decide (q.1 = t))).map Prod.snd

/-- The alignment step of `calculate_cross_correlation` (lines 86-89):
`pd.DataFrame({'upstream': u, 'downstream': d}).dropna()` inner-joins the two
series on timestamp and drops every row where either value is missing. -/
def align (up down : TimeSeries) : List (ℝ × ℝ) :=
  up.filterMap (fun p =>
    match p.2, tsFind p.1 down with
    | some v, some (some w) => some (v, w)
    | _, _ => none)

noncomputable def mean (l : List ℝ) : ℝ := l.sum / l.length

/-- `np.std` (population standard deviation, ddof = 0). -/
noncomputable def nstd (l : List ℝ) : ℝ :=
  Real.sqrt ((l.map (fun v => (v - mean l) ^ 2)).sum / l.length)

/-- Normalisation to zero mean and unit variance (lines 101-102). -/
noncomputable def normalizeVals (l : List ℝ) : List ℝ :=
  l.map (fun v => (v - mean l) / nstd l)

/-- Sum of products of deviations from the means, the shared numerator of
covariance and correlation. -/
noncomputable def sdev (x y : List ℝ) : ℝ :=
  (List.zipWith (fun a b => (a - mean x) * (b - mean y)) x y).sum

/-- `np.cov` with its default ddof = 1, as used inside `np.corrcoef`. -/
noncomputable def cov1 (x y : List ℝ) : ℝ := sdev x y / ((x.length : ℝ) - 1)

/-- `np.corrcoef(x, y)[0, 1]`: the off-diagonal covariance over the product
of the standard deviations derived from the covariance matrix.  (numpy also
clips the quotient to [-1, 1]; in exact arithmetic the quotient already lies
there by the Cauchy-Schwarz inequality, so the clip is omitted.) -/
noncomputable def corrcoef (x y : List ℝ) : ℝ :=
  cov1 x y / (Real.sqrt (cov1 x x) * Real.sqrt (cov1 y y))

/-- The textbook Pearson correlation coefficient — the spec's "standard
reference computation". -/
noncomputable def pearson (x y : List ℝ) : ℝ :=
  sdev x y / Real.sqrt (sdev x x * sdev y y)

/-- One iteration of the lag loop of `calculate_cross_correlation`
(lines 108-120): at lag 0 the two full normalised arrays are compared; at a
positive lag that truncation permits, the upstream array loses its last
`lag` entries and the downstream array its first `lag`; any other lag gets
correlation 0. -/
noncomputable def corrAtLag (xn yn : List ℝ) (lag : ℕ) : ℝ :=
  if lag = 0 then corrcoef xn yn
  else if lag < xn.length then corrcoef (xn.take (xn.length - lag)) (yn.drop lag)
  else 0

/-- The tuple `(lags, correlations, optimal_lag, max_correlation)` returned
by `calculate_cross_correlation`; `(None, None, None, None)` maps to `none`. -/
structure LagResult where
  lags : List ℕ
  correlations : List ℝ
  optimal_lag : ℕ
  max_correlation : ℝ

/-- The local `upstream_norm` of `calculate_cross_correlation` (line 101). -/
noncomputable def upstreamNorm (upstream downstream : TimeSeries) : List ℝ :=
  normalizeVals ((align upstream downstream).map Prod.fst)

/-- The local `downstream_norm` of `calculate_cross_correlation` (line 102). -/
noncomputable def downstreamNorm (upstream downstream : TimeSeries) : List ℝ :=
  normalizeVals ((align upstream downstream).map Prod.snd)

/-- The local `correlations` accumulated by the lag loop (lines 105-120):
one correlation per candidate lag `0 .. max_lag_days`. -/
noncomputable def lagCorrs (upstream downstream : TimeSeries) (max_lag_days : ℕ) : List ℝ :=
  (List.range (max_lag_days + 1)).map
    (corrAtLag (upstreamNorm upstream downstream) (downstreamNorm upstream downstream))

/-- `calculate_cross_correlation` (02_correlation_analysis.py, lines 64-129). -/
noncomputable def calculate_cross_correlation (upstream downstream : TimeSeries)
    (max_lag_days : ℕ := 30) : Option LagResult :=
  if (align upstream downstream).length < 100 then none
  else
    some { lags := List.range (max_lag_days + 1)
           correlations := lagCorrs upstream downstream max_lag_days
           optimal_lag := (List.range (max_lag_days + 1)).getD
             (npArgmax (lagCorrs upstream downstream max_lag_days)) 0
           max_correlation := listMax (lagCorrs upstream downstream max_lag_days) }

theorem getD_of_lt {α : Type} (l : List α) (i : ℕ) (d : α) (h : i < l.length) :
    l.getD i d = l.get ⟨i, h⟩ := by
  rw [List.getD_eq_getElem?_getD, List.getElem?_eq_getElem h]
  rfl

theorem lagCorrs_length (up down : TimeSeries) (ml : ℕ) :
    (lagCorrs up down ml).length = ml + 1 := by
  simp [lagCorrs]

theorem lagCorrs_getD (up down : TimeSeries) (ml : ℕ) {i : ℕ} (hi : i ≤ ml) :
    (lagCorrs up down ml).getD i 0 =
      corrAtLag (upstreamNorm up down) (downstreamNorm up down) i := by
  have hlen : i < (lagCorrs up down ml).length := by
    rw [lagCorrs_length]; omega
  rw [getD_of_lt _ _ _ hlen]
  simp [lagCorrs]

theorem calculate_cross_correlation_of_ge {up down : TimeSeries} (ml : ℕ)
    (h : 100 ≤ (align up down).length) :
    calculate_cross_correlation up down ml =
      some { lags := List.range (ml + 1)
             correlations := lagCorrs up down ml
             optimal_lag := npArgmax (lagCorrs up down ml)
             max_correlation := listMax (lagCorrs up down ml) } := by
  have hne : ¬(align up down).length < 100 := by omega
  have harg : npArgmax (lagCorrs up down ml) < ml + 1 := by
    have hlen := lagCorrs_length up down ml
    have : lagCorrs up down ml ≠ [] := by
      intro hnil; rw [hnil] at hlen; simp at hlen
    have := npArgmax_lt_length this
    omega
  rw [calculate_cross_correlation, if_neg hne]
  have hget : (List.range (ml + 1)).getD (npArgmax (lagCorrs up down ml)) 0 =
      npArgmax (lagCorrs up down ml) := by
    have hlt : npArgmax (lagCorrs up down ml) < (List.range (ml + 1)).length := by
      simpa using harg
    rw [getD_of_lt _ _ _ hlt]
    simp
  rw [hget]

theorem zipWith_self_map {α β : Type} (f : α → α → β) (l : List α) :
    List.zipWith f l l = l.map (fun a => f a a) := by
  induction l with
  | nil => rfl
  | cons x xs ih => simp [ih]

theorem sdev_self_nonneg (x : List ℝ) : 0 ≤ sdev x x := by
  rw [sdev, zipWith_self_map]
  apply List.sum_nonneg
  intro a ha
  obtain ⟨b, _, rfl⟩ := List.mem_map.mp ha
  exact mul_self_nonneg _

theorem sdev_of_length_le_one {x : List ℝ} (y : List ℝ) (h : x.length ≤ 1) :
    sdev x y = 0 := by
  match x with
  | [] => simp [sdev]
  | [a] =>
    have hm : mean [a] = a := by simp [mean]
    match y with
    | [] => simp [sdev]
    | b :: ys => simp [sdev, hm]
  | a :: b :: t => simp at h

/-- The correlation `np.corrcoef` computes (covariances with ddof = 1)
coincides with the textbook Pearson coefficient on equal-length samples: the
1/(n-1) factors cancel.  This also holds in the degenerate junk cases (fewer
than two samples, zero variance), where both sides are 0. -/
theorem corrcoef_eq_pearson (x y : List ℝ) (hlen : x.length = y.length) :
    corrcoef x y = pearson x y := by
  rw [corrcoef, pearson, cov1, cov1, cov1]
  have hyx : ((y.length : ℝ)) = ((x.length : ℝ)) := by rw [hlen]
  rw [hyx]
  by_cases hn : x.length ≤ 1
  · rw [sdev_of_length_le_one y hn, sdev_of_length_le_one x hn]
    simp
  · have hm : (0 : ℝ) < (x.length : ℝ) - 1 := by
      have h2 : 2 ≤ x.length := by omega
      have h2' : (2 : ℝ) ≤ (x.length : ℝ) := by exact_mod_cast h2
      linarith
    have hB : 0 ≤ sdev x x := sdev_self_nonneg x
    have hC : 0 ≤ sdev y y := sdev_self_nonneg y
    rw [Real.sqrt_div hB, Real.sqrt_div hC, Real.sqrt_mul hB]
    rw [div_mul_div_comm, Real.mul_self_sqrt hm.le]
    by_cases hD : Real.sqrt (sdev x x) * Real.sqrt (sdev y y) = 0
    · rw [hD, zero_div, div_zero, div_zero]
    · have hmne : ((x.length : ℝ) - 1) ≠ 0 := ne_of_gt hm
      field_simp

theorem tsFind_map_self (ts : List ℤ) (g : ℤ → ℝ) {t : ℤ} (ht : t ∈ ts) :
    tsFind t (ts.map (fun s => (s, some (g s)))) = some (some (g t)) := by
  induction ts with
  | nil => cases ht
  | cons s ss ih =>
    rw [List.map_cons, tsFind]
    by_cases hst : s = t
    · subst hst
      rw [List.find?_cons_of_pos _ (by simp)]
      simp
    · rw [List.find?_cons_of_neg _ (by simp [hst])]
      have ht' : t ∈ ss := by
        rcases List.mem_cons.mp ht with h | h
        · exact absurd h.symm hst
        · exact h
      have hih := ih ht'
      rw [tsFind] at hih
      exact hih

/-- Aligning a fully populated series with itself keeps every row. -/
theorem align_map_self (ts : List ℤ) (g : ℤ → ℝ) :
    align (ts.map (fun s => (s, some (g s)))) (ts.map (fun s => (s, some (g s)))) =
      ts.map (fun s => (g s, g s)) := by
  rw [align, List.filterMap_map]
  have h1 : ∀ s ∈ ts,
      ((fun p : ℤ × Option ℝ =>
        match p.2, tsFind p.1 (ts.map (fun u => (u, some (g u)))) with
        | some v, some (some w) => some (v, w)
        | _, _ => none) ∘ (fun s => (s, some (g s)))) s = some (g s, g s) := by
    intro s hs
    simp only [Function.comp]
    rw [tsFind_map_self ts g hs]
  rw [List.filterMap_congr h1]
  rw [show (fun s : ℤ => some (g s, g s)) = some ∘ (fun s : ℤ => (g s, g s)) from rfl]
  rw [List.filterMap_eq_map]

/-- A 100-day fully populated synthetic series used as concrete input for the
witnesses below. -/
noncomputable def witSeries : TimeSeries :=
  ((List.range 100).map (fun (i : ℕ) => (i : ℤ))).map (fun s => (s, some ((s : ℝ))))

theorem align_witSeries_length : (align witSeries witSeries).length = 100 := by
  rw [witSeries, align_map_self]
  rw [List.length_map, List.length_map, List.length_range]

theorem upstreamNorm_length (up down : TimeSeries) :
    (upstreamNorm up down).length = (align up down).length := by
  simp [upstreamNorm, normalizeVals]

theorem downstreamNorm_length (up down : TimeSeries) :
    (downstreamNorm up down).length = (align up down).length := by
  simp [downstreamNorm, normalizeVals]

/-- C1: on at least 100 aligned samples, `calculate_cross_correlation` reports
one correlation per tested lag `0..max_lag`, and its optimal lag is the argmax
of those correlations, ties resolved towards the smallest lag (every strictly
earlier lag has a strictly smaller correlation). -/
theorem C1_optimal_lag_first_argmax (up down : TimeSeries) (max_lag : ℕ)
    (h : 100 ≤ (align up down).length) :
    ∃ r : LagResult, calculate_cross_correlation up down max_lag = some r ∧
      r.lags = List.range (max_lag + 1) ∧
      r.correlations.length = max_lag + 1 ∧
      r.optimal_lag ≤ max_lag ∧
      (∀ i, i ≤ max_lag →
        r.correlations.getD i 0 ≤ r.correlations.getD r.optimal_lag 0) ∧
      (∀ j, j < r.optimal_lag →
        r.correlations.getD j 0 < r.correlations.getD r.optimal_lag 0) := by
  have hlen : (lagCorrs up down max_lag).length = max_lag + 1 :=
    lagCorrs_length up down max_lag
  have hne : lagCorrs up down max_lag ≠ [] := by
    intro hnil; rw [hnil] at hlen; simp at hlen
  have harg : npArgmax (lagCorrs up down max_lag) < (lagCorrs up down max_lag).length :=
    npArgmax_lt_length hne
  have hopt : (lagCorrs up down max_lag).getD (npArgmax (lagCorrs up down max_lag)) 0 =
      listMax (lagCorrs up down max_lag) := by
    rw [getD_of_lt _ _ _ harg, npArgmax_get]
  refine ⟨_, calculate_cross_correlation_of_ge max_lag h, rfl, hlen, ?_, ?_, ?_⟩
  · show npArgmax (lagCorrs up down max_lag) ≤ max_lag
    omega
  · intro i hi
    show (lagCorrs up down max_lag).getD i 0 ≤
      (lagCorrs up down max_lag).getD (npArgmax (lagCorrs up down max_lag)) 0
    have hil : i < (lagCorrs up down max_lag).length := by omega
    rw [hopt, getD_of_lt _ _ _ hil]
    exact le_listMax_of_mem (List.get_mem _ _ _)
  · intro j hj
    have hj' : j < npArgmax (lagCorrs up down max_lag) := hj
    show (lagCorrs up down max_lag).getD j 0 <
      (lagCorrs up down max_lag).getD (npArgmax (lagCorrs up down max_lag)) 0
    have hjl : j < (lagCorrs up down max_lag).length := by omega
    rw [hopt, getD_of_lt _ _ _ hjl]
    exact lt_of_le_of_ne (le_listMax_of_mem (List.get_mem _ _ _))
      (ne_listMax_of_lt_npArgmax hj' hjl)

theorem C1_witness :
    (calculate_cross_correlation witSeries witSeries 30).isSome = true := by
  obtain ⟨r, hr, -⟩ :=
    C1_optimal_lag_first_argmax witSeries witSeries 30 align_witSeries_length.ge
  rw [hr]; rfl

/-- C5: with fewer than 100 aligned samples, `calculate_cross_correlation`
returns the unavailable sentinel, never a numeric result. -/
theorem C5_unavailable_below_100 (up down : TimeSeries) (max_lag : ℕ)
    (h : (align up down).length < 100) :
    calculate_cross_correlation up down max_lag = none := by
  rw [calculate_cross_correlation, if_pos h]

theorem C5_witness : calculate_cross_correlation [] [] 30 = none :=
  C5_unavailable_below_100 [] [] 30 (by simp [align])

/-- C7: on an accepted pair, the correlation reported at lag 0 is exactly the
textbook Pearson correlation of the two full normalised aligned arrays. -/
theorem C7_lag_zero_is_pearson (up down : TimeSeries) (max_lag : ℕ)
    (h : 100 ≤ (align up down).length) :
    ∃ r : LagResult, calculate_cross_correlation up down max_lag = some r ∧
      r.correlations.getD 0 0 =
        pearson (upstreamNorm up down) (downstreamNorm up down) := by
  refine ⟨_, calculate_cross_correlation_of_ge max_lag h, ?_⟩
  have h0 : (0 : ℕ) ≤ max_lag := Nat.zero_le max_lag
  rw [lagCorrs_getD up down max_lag h0]
  rw [corrAtLag, if_pos rfl]
  exact corrcoef_eq_pearson _ _
    (by rw [upstreamNorm_length, downstreamNorm_length])

theorem C7_witness :
    ∃ r : LagResult, calculate_cross_correlation witSeries witSeries 7 = some r ∧
      r.correlations.getD 0 0 =
        pearson (upstreamNorm witSeries witSeries) (downstreamNorm witSeries witSeries) :=
  C7_lag_zero_is_pearson witSeries witSeries 7 align_witSeries_length.ge

/-- C9: on an accepted pair, every candidate lag is tested without error, and
any lag at least as large as the aligned sample length gets correlation 0. -/
theorem C9_overlong_lag_is_zero (up down : TimeSeries) (max_lag : ℕ)
    (h : 100 ≤ (align up down).length) :
    ∃ r : LagResult, calculate_cross_correlation up down max_lag = some r ∧
      r.correlations.length = max_lag + 1 ∧
      ∀ lag, (align up down).length ≤ lag → lag ≤ max_lag →
        r.correlations.getD lag 0 = 0 := by
  refine ⟨_, calculate_cross_correlation_of_ge max_lag h, lagCorrs_length up down max_lag, ?_⟩
  intro lag hlow hhigh
  rw [lagCorrs_getD up down max_lag hhigh]
  have hne : lag ≠ 0 := by omega
  have hnl : ¬lag < (upstreamNorm up down).length := by
    rw [upstreamNorm_length]; omega
  rw [corrAtLag, if_neg hne, if_neg hnl]

theorem C9_witness :
    ∃ r : LagResult, calculate_cross_correlation witSeries witSeries 100 = some r ∧
      r.correlations.getD 100 0 = 0 := by
  obtain ⟨r, hr, -, hz⟩ :=
    C9_overlong_lag_is_zero witSeries witSeries 100 align_witSeries_length.ge
  exact ⟨r, hr, hz 100 align_witSeries_length.le (le_refl 100)⟩

/-- The parameters of a fitted `sklearn.linear_model.LinearRegression`:
`model.intercept_` and `model.coef_[0]`. -/
structure LinModel where
  intercept : ℝ
  slope : ℝ

/-- `model.predict` for the single-predictor linear model. -/
noncomputable def predict (m : LinModel) (x : ℝ) : ℝ := m.intercept + m.slope * x

/-- `sklearn.metrics.r2_score`: one minus residual sum of squares over total
sum of squares about the mean of the observed responses. -/
noncomputable def r2_score (y pred : List ℝ) : ℝ :=
  1 - (List.zipWith (fun a b => (a - b) ^ 2) y pred).sum /
      ((y.map (fun a => (a - mean y) ^ 2)).sum)

/-- `sklearn.metrics.mean_squared_error`. -/
noncomputable def mean_squared_error (y pred : List ℝ) : ℝ :=
  (List.zipWith (fun a b => (a - b) ^ 2) y pred).sum / y.length

/-- `np.mean(np.abs(y - predictions))` (line 501). -/
noncomputable def mean_abs_error (y pred : List ℝ) : ℝ :=
  (List.zipWith (fun a b => |a - b|) y pred).sum / y.length

/-- The slope sklearn's least-squares fit computes on centred data; on a
constant predictor the minimum-norm solution is slope 0, which the 0/0 = 0
convention reproduces. -/
noncomputable def fitSlope (X y : List ℝ) : ℝ := sdev X y / sdev X X

/-- The intercept of the least-squares fit. -/
noncomputable def fitIntercept (X y : List ℝ) : ℝ := mean y - fitSlope X y * mean X

/-- The model produced by `LinearRegression().fit(X, y)`. -/
noncomputable def fitModel (X y : List ℝ) : LinModel :=
  { intercept := fitIntercept X y, slope := fitSlope X y }

/-- The in-sample predictions `model.predict(X)` (line 197). -/
noncomputable def fitPredictions (X y : List ℝ) : List ℝ :=
  X.map (predict (fitModel X y))

/-- The tuple `(model, predictions, r2, rmse, residuals)` returned by
`fit_linear_model`. -/
structure LinFit where
  model : LinModel
  predictions : List ℝ
  r2 : ℝ
  rmse : ℝ
  residuals : List ℝ

/-- `fit_linear_model` (02_correlation_analysis.py, lines 170-209).  sklearn
raises an uncaught `ValueError` on an empty or length-mismatched input,
embedded as `none`; any other input is fitted without further checks. -/
noncomputable def fit_linear_model (X y : List ℝ) : Option LinFit :=
  if X.length = 0 ∨ X.length ≠ y.length then none
  else
    some { model := fitModel X y
           predictions := fitPredictions X y
           r2 := r2_score y (fitPredictions X y)
           rmse := Real.sqrt (mean_squared_error y (fitPredictions X y))
           residuals := List.zipWith (fun a b => a - b) y (fitPredictions X y) }

/-- C8 counterexample: a dataset with a single valid row is fitted silently —
`fit_linear_model` returns a model rather than an `InsufficientData` error. -/
theorem C8_counterexample_one_row_fits :
    (fit_linear_model [(1 : ℝ)] [(2 : ℝ)]).isSome = true := by
  rw [fit_linear_model, if_neg (by simp)]
  rfl

/-- C8 amended: `fit_linear_model` has no minimum-row check of its own.  Only
the empty (or length-mismatched) input aborts, with an uncaught sklearn
`ValueError` rather than an `InsufficientData` signal; a single-row dataset is
silently fitted to the degenerate model with slope 0 and intercept equal to
the lone response. -/
theorem C8_amended_no_minimum_row_check :
    fit_linear_model ([] : List ℝ) ([] : List ℝ) = none ∧
    ∀ x y : ℝ, ∃ f : LinFit, fit_linear_model [x] [y] = some f ∧
      f.model.slope = 0 ∧ f.model.intercept = y := by
  constructor
  · rw [fit_linear_model, if_pos (by simp)]
  · intro x y
    refine ⟨_, by rw [fit_linear_model, if_neg (by simp)], ?_, ?_⟩
    · show fitSlope [x] [y] = 0
      rw [fitSlope, sdev_of_length_le_one _ (by simp), zero_div]
    · show fitIntercept [x] [y] = y
      rw [fitIntercept, fitSlope, sdev_of_length_le_one _ (by simp), zero_div, zero_mul,
        mean]
      simp

/-- The four flow-regime labels, the keys of `FLOW_REGIMES` (lines 35-40). -/
inductive RegimeLabel where
  | low_flow
  | normal_flow
  | high_flow
  | flood_flow
deriving DecidableEq

/-- `FLOW_REGIMES`: each label with its half-open discharge interval in cfs. -/
noncomputable def FLOW_REGIMES : List (RegimeLabel × ℝ × ℝ) :=
  [(RegimeLabel.low_flow, 0, 5000),
   (RegimeLabel.normal_flow, 5000, 20000),
   (RegimeLabel.high_flow, 20000, 50000),
   (RegimeLabel.flood_flow, 50000, 200000)]

/-- One row of the per-regime performance table. -/
structure RegimePerformance where
  regime : RegimeLabel
  n_samples : ℕ
  r2 : ℝ
  rmse : ℝ
  mae : ℝ

/-- The regime filter (lines 488-490): rows of the lagged dataset whose
response (`RVTI3_current`, the second component) lies in `[lo, hi)`. -/
noncomputable def regimeRows (lagged : List (ℝ × ℝ)) (lo hi : ℝ) : List (ℝ × ℝ) :=
  lagged.filter (fun p => decide (lo ≤ p.2) && decide (p.2 < hi))

/-- `analyze_model_performance_by_stage` (lines 480-515): for each regime,
filter the lagged dataset by response, skip the regime entirely when fewer
than 10 rows qualify, otherwise score the globally fitted model on the
filtered rows. -/
noncomputable def analyze_model_performance_by_stage (lagged : List (ℝ × ℝ))
    (model : LinModel) : List RegimePerformance :=
  FLOW_REGIMES.filterMap (fun rg =>
    if (regimeRows lagged rg.2.1 rg.2.2).length < 10 then none
    else
      some { regime := rg.1
             n_samples := (regimeRows lagged rg.2.1 rg.2.2).length
             r2 := r2_score ((regimeRows lagged rg.2.1 rg.2.2).map Prod.snd)
               ((regimeRows lagged rg.2.1 rg.2.2).map (fun p => predict model p.1))
             rmse := Real.sqrt (mean_squared_error
               ((regimeRows lagged rg.2.1 rg.2.2).map Prod.snd)
               ((regimeRows lagged rg.2.1 rg.2.2).map (fun p => predict model p.1)))
             mae := mean_abs_error ((regimeRows lagged rg.2.1 rg.2.2).map Prod.snd)
               ((regimeRows lagged rg.2.1 rg.2.2).map (fun p => predict model p.1)) })

theorem FLOW_REGIMES_label_inj {a b : RegimeLabel × ℝ × ℝ}
    (ha : a ∈ FLOW_REGIMES) (hb : b ∈ FLOW_REGIMES) (h : a.1 = b.1) : a = b := by
  fin_cases ha <;> fin_cases hb <;> simp_all

/-- C6: the regime table applies the already-fitted global model to the rows
of the same lagged dataset filtered by response into each half-open regime
interval; a regime reaching 10 qualifying rows appears with exactly those
metrics, every reported row has at least 10 samples, and a regime with fewer
than 10 qualifying rows is absent from the table altogether. -/
theorem C6_regime_table_filtering_and_exclusion (lagged : List (ℝ × ℝ))
    (model : LinModel) :
    (∀ rg ∈ FLOW_REGIMES, 10 ≤ (regimeRows lagged rg.2.1 rg.2.2).length →
      ({ regime := rg.1
         n_samples := (regimeRows lagged rg.2.1 rg.2.2).length
         r2 := r2_score ((regimeRows lagged rg.2.1 rg.2.2).map Prod.snd)
           ((regimeRows lagged rg.2.1 rg.2.2).map (fun p => predict model p.1))
         rmse := Real.sqrt (mean_squared_error
           ((regimeRows lagged rg.2.1 rg.2.2).map Prod.snd)
           ((regimeRows lagged rg.2.1 rg.2.2).map (fun p => predict model p.1)))
         mae := mean_abs_error ((regimeRows lagged rg.2.1 rg.2.2).map Prod.snd)
           ((regimeRows lagged rg.2.1 rg.2.2).map (fun p => predict model p.1)) }
        : RegimePerformance) ∈ analyze_model_performance_by_stage lagged model) ∧
    (∀ e ∈ analyze_model_performance_by_stage lagged model, 10 ≤ e.n_samples) ∧
    (∀ rg ∈ FLOW_REGIMES, (regimeRows lagged rg.2.1 rg.2.2).length < 10 →
      ∀ e ∈ analyze_model_performance_by_stage lagged model, e.regime ≠ rg.1) := by
  refine ⟨?_, ?_, ?_⟩
  · intro rg hrg hn
    refine List.mem_filterMap.mpr ⟨rg, hrg, ?_⟩
    rw [if_neg (by omega)]
  · intro e he
    obtain ⟨a, ha, hfa⟩ := List.mem_filterMap.mp he
    by_cases hc : (regimeRows lagged a.2.1 a.2.2).length < 10
    · rw [if_pos hc] at hfa
      exact absurd hfa (by simp)
    · rw [if_neg hc] at hfa
      have he' := Option.some.inj hfa
      rw [← he']
      show 10 ≤ (regimeRows lagged a.2.1 a.2.2).length
      omega
  · intro rg hrg hsmall e he
    obtain ⟨a, ha, hfa⟩ := List.mem_filterMap.mp he
    by_cases hc : (regimeRows lagged a.2.1 a.2.2).length < 10
    · rw [if_pos hc] at hfa
      exact absurd hfa (by simp)
    · rw [if_neg hc] at hfa
      have he' := Option.some.inj hfa
      intro hlab
      have hareg : a.1 = rg.1 := by
        rw [← hlab, ← he']
      have : a = rg := FLOW_REGIMES_label_inj ha hrg hareg
      rw [this] at hc
      omega

/-- A forecast timestamp field as the snapshot JSON carries it: absent
(Python `None`), present but not ISO-8601 parsable, or parsed to a time.
Times are rationals measured in hours. -/
inductive TsField where
  | missing
  | unparsable
  | parsed (t : ℚ)

/-- The scalar fields `generate_forecast_points` reads from one gauge block:
`observed.stage`, `forecast.stage` and `forecast.timestamp` (lines 101-110). -/
structure GaugeSnapshot where
  observed_stage : Option ℝ
  forecast_stage : Option ℝ
  forecast_timestamp : TsField

/-- The `gauges` view of `noaa_forecasts.json`: `gauges.get('TERI3', {})` and
`gauges.get('RVTI3', {})`; a missing or empty gauge block is `none`. -/
structure NoaaData where
  teri3 : Option GaugeSnapshot
  rvti3 : Option GaugeSnapshot

/-- The uncaught Python exceptions the propagator can raise while parsing a
forecast timestamp: `ValueError` from `datetime.fromisoformat` on a bad
string, `AttributeError` from `.replace` on `None`. -/
inductive Fault where
  | valueError
  | attributeError
deriving DecidableEq

/-- `datetime.fromisoformat(ts.replace('Z', '+00:00'))` (lines 117-118). -/
def parseTimestamp : TsField → Except Fault ℚ
  | TsField.missing => Except.error Fault.attributeError
  | TsField.unparsable => Except.error Fault.valueError
  | TsField.parsed t => Except.ok t

/-- Python truthiness of an optional stage, as `all([...])` (line 112) tests
it: `None` and `0.0` are both falsy. -/
noncomputable def truthyStage : Option ℝ → Bool
  | none => false
  | some v => !(decide (v = 0))

/-- The joint truthiness test of line 112:
`all([teri3_current, rvti3_current, teri3_forecast, rvti3_forecast])`. -/
noncomputable def stagesTruthy (teri3 rvti3 : GaugeSnapshot) : Bool :=
  truthyStage teri3.observed_stage && truthyStage rvti3.observed_stage &&
    truthyStage teri3.forecast_stage && truthyStage rvti3.forecast_stage

/-- `TERI3_TO_HUTSONVILLE_LAG_HOURS` (line 19). -/
def TERI3_TO_HUTSONVILLE_LAG_HOURS : ℚ := 18

/-- `HUTSONVILLE_TO_RVTI3_LAG_HOURS` (line 20); defined but, as in the
source, never used by the forecast computation. -/
def HUTSONVILLE_TO_RVTI3_LAG_HOURS : ℚ := 6

/-- `STAGE_SCALING` (line 24). -/
noncomputable def STAGE_SCALING : ℝ := 0.98

/-- `estimate_hutsonville_stage` (lines 51-71): position-weighted blend of
the two stages, scaled, rounded to two decimals. -/
noncomputable def estimate_hutsonville_stage (teri3_stage rvti3_stage : ℝ)
    (position_weight : ℝ := 0.85) : ℝ :=
  round2 (((1 - position_weight) * teri3_stage + position_weight * rvti3_stage) *
    STAGE_SCALING)

/-- One forecast point as appended to the output list; the `date_display`
string is rendering-only and omitted from the embedding. -/
structure ForecastPoint where
  timestamp : ℚ
  riverstage : ℝ
  is_forecast : Bool

/-- The step offsets `range(6, num_hours + 1, 6)` of the forecast loop
(line 140), in hours. -/
def stepHours (num_hours : ℕ) : List ℕ :=
  (List.range (num_hours / 6)).map (fun k => 6 * (k + 1))

/-- The stage computed for one step of the forecast loop (lines 143-157):
linear interpolation from the current stage towards the peak before peak
time (progress clamped to 1 when the time to peak is not positive), and a
multiplicative recession `0.99 ** (hours_after_peak / 6)` from the peak
value at or after peak time. -/
noncomputable def stepStage (current_stage peak_stage : ℝ) (current_time peak_time : ℚ)
    (forecast_time : ℚ) : ℝ :=
  if forecast_time < peak_time then
    current_stage + (peak_stage - current_stage) *
      (if 0 < peak_time - current_time then
        min 1 (((forecast_time - current_time) / (peak_time - current_time) : ℚ) : ℝ)
      else 1)
  else
    peak_stage * (0.99 : ℝ) ^ ((((forecast_time - peak_time) / 6 : ℚ) : ℝ))

/-- `generate_forecast_points` (generate_hutsonville_forecast.py, lines
74-169).  A missing gauge block or a falsy stage field yields the empty
list (the "incomplete data" warning path); an unparsable or missing
forecast timestamp propagates as an uncaught exception. -/
noncomputable def generate_forecast_points (noaa : NoaaData) (current_time : ℚ)
    (current_hutsonville_stage : ℝ) (num_hours : ℕ := 120) :
    Except Fault (List ForecastPoint) :=
  match noaa.teri3, noaa.rvti3 with
  | none, _ => Except.ok []
  | some _, none => Except.ok []
  | some teri3, some rvti3 =>
    if stagesTruthy teri3 rvti3 = false then Except.ok []
    else
      match parseTimestamp teri3.forecast_timestamp with
      | Except.error e => Except.error e
      | Except.ok teri3_forecast_time =>
        match parseTimestamp rvti3.forecast_timestamp with
        | Except.error e => Except.error e
        | Except.ok _ =>
          Except.ok
            ({ timestamp := current_time, riverstage := current_hutsonville_stage,
               is_forecast := true } ::
              (stepHours num_hours).map (fun (h : ℕ) =>
                { timestamp := current_time + (h : ℚ)
                  riverstage := round2 (stepStage current_hutsonville_stage
                    (estimate_hutsonville_stage (teri3.forecast_stage.getD 0)
                      (rvti3.forecast_stage.getD 0))
                    current_time
                    (teri3_forecast_time + TERI3_TO_HUTSONVILLE_LAG_HOURS)
                    (current_time + (h : ℚ)))
                  is_forecast := true }))

theorem generate_missing_teri3 (g : Option GaugeSnapshot) (ct : ℚ) (cs : ℝ) (nh : ℕ) :
    generate_forecast_points ⟨none, g⟩ ct cs nh = Except.ok [] := rfl

theorem generate_missing_rvti3 (g : GaugeSnapshot) (ct : ℚ) (cs : ℝ) (nh : ℕ) :
    generate_forecast_points ⟨some g, none⟩ ct cs nh = Except.ok [] := rfl

theorem generate_falsy_stage (gt gr : GaugeSnapshot) (ct : ℚ) (cs : ℝ) (nh : ℕ)
    (h : stagesTruthy gt gr = false) :
    generate_forecast_points ⟨some gt, some gr⟩ ct cs nh = Except.ok [] := by
  rw [generate_forecast_points]
  dsimp only
  rw [h]
  rfl

theorem generate_teri3_ts_error (gt gr : GaugeSnapshot) (ct : ℚ) (cs : ℝ) (nh : ℕ)
    (h : stagesTruthy gt gr = true) (e : Fault)
    (hp : parseTimestamp gt.forecast_timestamp = Except.error e) :
    generate_forecast_points ⟨some gt, some gr⟩ ct cs nh = Except.error e := by
  rw [generate_forecast_points]
  dsimp only
  rw [h, hp]
  rfl

theorem generate_rvti3_ts_error (gt gr : GaugeSnapshot) (ct : ℚ) (cs : ℝ) (nh : ℕ)
    (h : stagesTruthy gt gr = true) (t : ℚ)
    (hp1 : parseTimestamp gt.forecast_timestamp = Except.ok t) (e : Fault)
    (hp2 : parseTimestamp gr.forecast_timestamp = Except.error e) :
    generate_forecast_points ⟨some gt, some gr⟩ ct cs nh = Except.error e := by
  rw [generate_forecast_points]
  dsimp only
  rw [h, hp1, hp2]
  rfl

theorem generate_complete (gt gr : GaugeSnapshot) (ct : ℚ) (cs : ℝ) (nh : ℕ)
    (h : stagesTruthy gt gr = true) (t u : ℚ)
    (hp1 : parseTimestamp gt.forecast_timestamp = Except.ok t)
    (hp2 : parseTimestamp gr.forecast_timestamp = Except.ok u) :
    generate_forecast_points ⟨some gt, some gr⟩ ct cs nh =
      Except.ok ({ timestamp := ct, riverstage := cs, is_forecast := true } ::
        (stepHours nh).map (fun (h : ℕ) =>
          { timestamp := ct + (h : ℚ)
            riverstage := round2 (stepStage cs
              (estimate_hutsonville_stage (gt.forecast_stage.getD 0)
                (gr.forecast_stage.getD 0))
              ct (t + TERI3_TO_HUTSONVILLE_LAG_HOURS) (ct + (h : ℚ)))
            is_forecast := true })) := by
  rw [generate_forecast_points]
  dsimp only
  rw [h, hp1, hp2]
  rfl

/-- C10: when all four stage fields are present but any one of them is
exactly 0.0, the truthiness test of line 112 treats it as missing and the
propagator returns the empty forecast. -/
theorem C10_zero_stage_treated_as_missing (gt gr : GaugeSnapshot) (ct : ℚ) (cs : ℝ)
    (nh : ℕ) (a b c d : ℝ)
    (hga : gt.observed_stage = some a) (hgb : gr.observed_stage = some b)
    (hgc : gt.forecast_stage = some c) (hgd : gr.forecast_stage = some d)
    (hzero : a = 0 ∨ b = 0 ∨ c = 0 ∨ d = 0) :
    generate_forecast_points ⟨some gt, some gr⟩ ct cs nh = Except.ok [] := by
  apply generate_falsy_stage
  rw [stagesTruthy, hga, hgb, hgc, hgd]
  rcases hzero with rfl | rfl | rfl | rfl <;> simp [truthyStage]

theorem C10_witness :
    generate_forecast_points
      ⟨some ⟨some 0, some 1, TsField.parsed 0⟩, some ⟨some 1, some 1, TsField.parsed 0⟩⟩
      0 10 120 = Except.ok [] :=
  C10_zero_stage_treated_as_missing _ _ 0 10 120 0 1 1 1 rfl rfl rfl rfl (Or.inl rfl)

theorem decide_one_ne_zero : decide ((1 : ℝ) = 0) = false :=
  decide_eq_false (by norm_num)

/-- C4 counterexample: with all four stages present and truthy but an
unparsable upstream forecast timestamp, the propagator raises an uncaught
`ValueError` instead of returning the empty sequence. -/
theorem C4_counterexample_unparsable_timestamp_raises :
    generate_forecast_points
      ⟨some ⟨some 1, some 1, TsField.unparsable⟩, some ⟨some 1, some 1, TsField.parsed 0⟩⟩
      0 10 120 = Except.error Fault.valueError ∧
    (Except.error Fault.valueError : Except Fault (List ForecastPoint)) ≠
      Except.ok [] := by
  constructor
  · apply generate_teri3_ts_error
    · rw [stagesTruthy]
      simp [truthyStage, decide_one_ne_zero]
    · rfl
  · intro hcontra
    exact Except.noConfusion hcontra

/-- C4 amended: a missing gauge block or a missing/falsy stage field makes
the propagator return the empty sequence (the incomplete-data path), and on
complete stages it produces a nonempty forecast; but a missing or unparsable
forecast timestamp is NOT caught — it propagates as an uncaught
`AttributeError`/`ValueError` rather than yielding the empty sequence. -/
theorem C4_amended_empty_on_missing_stage_fault_on_bad_timestamp :
    (∀ (g : Option GaugeSnapshot) (ct : ℚ) (cs : ℝ) (nh : ℕ),
      generate_forecast_points ⟨none, g⟩ ct cs nh = Except.ok []) ∧
    (∀ (g : GaugeSnapshot) (ct : ℚ) (cs : ℝ) (nh : ℕ),
      generate_forecast_points ⟨some g, none⟩ ct cs nh = Except.ok []) ∧
    (∀ (gt gr : GaugeSnapshot) (ct : ℚ) (cs : ℝ) (nh : ℕ),
      stagesTruthy gt gr = false →
      generate_forecast_points ⟨some gt, some gr⟩ ct cs nh = Except.ok []) ∧
    (∀ (gt gr : GaugeSnapshot) (ct : ℚ) (cs : ℝ) (nh : ℕ) (e : Fault),
      stagesTruthy gt gr = true →
      parseTimestamp gt.forecast_timestamp = Except.error e →
      generate_forecast_points ⟨some gt, some gr⟩ ct cs nh = Except.error e) ∧
    (∀ (gt gr : GaugeSnapshot) (ct : ℚ) (cs : ℝ) (nh : ℕ) (t : ℚ) (e : Fault),
      stagesTruthy gt gr = true →
      parseTimestamp gt.forecast_timestamp = Except.ok t →
      parseTimestamp gr.forecast_timestamp = Except.error e →
      generate_forecast_points ⟨some gt, some gr⟩ ct cs nh = Except.error e) ∧
    (∀ (gt gr : GaugeSnapshot) (ct : ℚ) (cs : ℝ) (nh : ℕ) (t u : ℚ),
      stagesTruthy gt gr = true →
      parseTimestamp gt.forecast_timestamp = Except.ok t →
      parseTimestamp gr.forecast_timestamp = Except.ok u →
      ∃ pts : List ForecastPoint,
        generate_forecast_points ⟨some gt, some gr⟩ ct cs nh = Except.ok pts ∧
        pts ≠ []) := by
  refine ⟨generate_missing_teri3, generate_missing_rvti3, ?_, ?_, ?_, ?_⟩
  · intro gt gr ct cs nh h
    exact generate_falsy_stage gt gr ct cs nh h
  · intro gt gr ct cs nh e h hp
    exact generate_teri3_ts_error gt gr ct cs nh h e hp
  · intro gt gr ct cs nh t e h hp1 hp2
    exact generate_rvti3_ts_error gt gr ct cs nh h t hp1 e hp2
  · intro gt gr ct cs nh t u h hp1 hp2
    exact ⟨_, generate_complete gt gr ct cs nh h t u hp1 hp2, by simp⟩

theorem estimate_14_12 : estimate_hutsonville_stage 14 12 = 12.05 := by
  rw [estimate_hutsonville_stage, STAGE_SCALING, round2, roundHalfEven]
  norm_num

/-- C2 counterexample: at upstream 14.0 and downstream 12.0 the peak estimate
is 12.05 — the blend is rounded to two decimals, so it does not equal the raw
product ((0.15*14)+(0.85*12))*0.98 = 12.054, and it is not 12.11 (the spec's
arithmetic slip: the stated expression itself evaluates to 12.054). -/
theorem C2_counterexample_peak_is_rounded_12_05 :
    estimate_hutsonville_stage 14 12 = 12.05 ∧
    ((12.05 : ℝ) ≠ ((1 - 0.85) * 14 + 0.85 * 12) * 0.98) ∧
    ((12.05 : ℝ) ≠ 12.11) := by
  refine ⟨estimate_14_12, by norm_num, by norm_num⟩

/-- C2 amended: the peak estimate is the position-weighted blend
`(1-0.85)*up + 0.85*down`, scaled by 0.98 and rounded to two decimals
(12.05 at upstream 14, downstream 12); the forecast curve is entirely
independent of the downstream forecast's (parsed) timestamp; and on complete
data the curve's peak time is the upstream forecast time shifted by the fixed
18-hour upstream-to-target travel time. -/
theorem C2_amended_rounded_blend_and_upstream_timing :
    (∀ t r : ℝ, estimate_hutsonville_stage t r =
      round2 (((1 - 0.85) * t + 0.85 * r) * 0.98)) ∧
    (estimate_hutsonville_stage 14 12 = 12.05) ∧
    (∀ (gt gr : GaugeSnapshot) (t1 t2 ct : ℚ) (cs : ℝ) (nh : ℕ),
      generate_forecast_points
        ⟨some gt, some { gr with forecast_timestamp := TsField.parsed t1 }⟩ ct cs nh =
      generate_forecast_points
        ⟨some gt, some { gr with forecast_timestamp := TsField.parsed t2 }⟩ ct cs nh) ∧
    (∀ (gt gr : GaugeSnapshot) (t u ct : ℚ) (cs : ℝ) (nh : ℕ),
      stagesTruthy gt gr = true →
      gt.forecast_timestamp = TsField.parsed t →
      gr.forecast_timestamp = TsField.parsed u →
      generate_forecast_points ⟨some gt, some gr⟩ ct cs nh =
        Except.ok ({ timestamp := ct, riverstage := cs, is_forecast := true } ::
          (stepHours nh).map (fun (h : ℕ) =>
            { timestamp := ct + (h : ℚ)
              riverstage := round2 (stepStage cs
                (estimate_hutsonville_stage (gt.forecast_stage.getD 0)
                  (gr.forecast_stage.getD 0))
                ct (t + TERI3_TO_HUTSONVILLE_LAG_HOURS) (ct + (h : ℚ)))
              is_forecast := true }))) := by
  refine ⟨fun t r => rfl, estimate_14_12, ?_, ?_⟩
  · intro gt gr t1 t2 ct cs nh
    cases htr : stagesTruthy gt { gr with forecast_timestamp := TsField.parsed t1 } with
    | false =>
      rw [generate_falsy_stage gt { gr with forecast_timestamp := TsField.parsed t1 }
          ct cs nh htr,
        generate_falsy_stage gt { gr with forecast_timestamp := TsField.parsed t2 }
          ct cs nh htr]
    | true =>
      cases hpt : parseTimestamp gt.forecast_timestamp with
      | error e =>
        rw [generate_teri3_ts_error gt { gr with forecast_timestamp := TsField.parsed t1 }
            ct cs nh htr e hpt,
          generate_teri3_ts_error gt { gr with forecast_timestamp := TsField.parsed t2 }
            ct cs nh htr e hpt]
      | ok t =>
        rw [generate_complete gt { gr with forecast_timestamp := TsField.parsed t1 }
            ct cs nh htr t t1 hpt rfl,
          generate_complete gt { gr with forecast_timestamp := TsField.parsed t2 }
            ct cs nh htr t t2 hpt rfl]
  · intro gt gr t u ct cs nh h hts hus
    exact generate_complete gt gr ct cs nh h t u (by rw [hts]; rfl) (by rw [hus]; rfl)

theorem stepStage_interp (cs P : ℝ) (ct pt f : ℚ) (h1 : ct < f) (h2 : f < pt) :
    stepStage cs P ct pt f =
      cs + (P - cs) * min 1 (((f - ct) / (pt - ct) : ℚ) : ℝ) := by
  rw [stepStage, if_pos h2, if_pos (by linarith)]

theorem stepStage_decay (cs P : ℝ) (ct pt f : ℚ) (h : pt ≤ f) :
    stepStage cs P ct pt f = P * (0.99 : ℝ) ^ ((((f - pt) / 6 : ℚ) : ℝ)) := by
  rw [stepStage, if_neg (not_lt.mpr h)]

theorem stepStage_interp_mono (cs P : ℝ) (ct pt : ℚ) {f1 f2 : ℚ}
    (h1 : ct < f1) (h12 : f1 ≤ f2) (h2 : f2 < pt) :
    |P - stepStage cs P ct pt f2| ≤ |P - stepStage cs P ct pt f1| ∧
    (cs ≤ P → stepStage cs P ct pt f1 ≤ stepStage cs P ct pt f2) ∧
    (P ≤ cs → stepStage cs P ct pt f2 ≤ stepStage cs P ct pt f1) := by
  have hf1p : f1 < pt := lt_of_le_of_lt h12 h2
  have hc2 : ct < f2 := lt_of_lt_of_le h1 h12
  rw [stepStage_interp cs P ct pt f1 h1 hf1p, stepStage_interp cs P ct pt f2 hc2 h2]
  have hptct : (0 : ℚ) < pt - ct := by linarith
  have hq12 : (f1 - ct) / (pt - ct) ≤ (f2 - ct) / (pt - ct) :=
    (div_le_div_iff_of_pos_right hptct).mpr (by linarith)
  have hq1nn : (0 : ℚ) ≤ (f1 - ct) / (pt - ct) :=
    div_nonneg (by linarith) (by linarith)
  have hp12 : min 1 (((f1 - ct) / (pt - ct) : ℚ) : ℝ) ≤
      min 1 (((f2 - ct) / (pt - ct) : ℚ) : ℝ) :=
    min_le_min (le_refl 1) (by exact_mod_cast hq12)
  have hp1nn : (0 : ℝ) ≤ min 1 (((f1 - ct) / (pt - ct) : ℚ) : ℝ) :=
    le_min (by norm_num) (by exact_mod_cast hq1nn)
  have hp1le : min 1 (((f1 - ct) / (pt - ct) : ℚ) : ℝ) ≤ 1 := min_le_left _ _
  have hp2le : min 1 (((f2 - ct) / (pt - ct) : ℚ) : ℝ) ≤ 1 := min_le_left _ _
  refine ⟨?_, ?_, ?_⟩
  · have e1 : P - (cs + (P - cs) * min 1 (((f1 - ct) / (pt - ct) : ℚ) : ℝ)) =
        (P - cs) * (1 - min 1 (((f1 - ct) / (pt - ct) : ℚ) : ℝ)) := by ring
    have e2 : P - (cs + (P - cs) * min 1 (((f2 - ct) / (pt - ct) : ℚ) : ℝ)) =
        (P - cs) * (1 - min 1 (((f2 - ct) / (pt - ct) : ℚ) : ℝ)) := by ring
    rw [e1, e2, abs_mul, abs_mul,
      abs_of_nonneg (by linarith : (0 : ℝ) ≤ 1 - min 1 (((f1 - ct) / (pt - ct) : ℚ) : ℝ)),
      abs_of_nonneg (by linarith : (0 : ℝ) ≤ 1 - min 1 (((f2 - ct) / (pt - ct) : ℚ) : ℝ))]
    exact mul_le_mul_of_nonneg_left (by linarith) (abs_nonneg _)
  · intro hcsP
    have := mul_le_mul_of_nonneg_left hp12 (by linarith : (0 : ℝ) ≤ P - cs)
    linarith
  · intro hPcs
    have := mul_le_mul_of_nonpos_left hp12 (by linarith : P - cs ≤ 0)
    linarith

theorem stepStage_decay_mono (cs P : ℝ) (ct pt : ℚ) {f1 f2 : ℚ}
    (h1 : pt ≤ f1) (h12 : f1 ≤ f2) (hP : 0 ≤ P) :
    stepStage cs P ct pt f2 ≤ stepStage cs P ct pt f1 := by
  rw [stepStage_decay cs P ct pt f1 h1, stepStage_decay cs P ct pt f2 (le_trans h1 h12)]
  apply mul_le_mul_of_nonneg_left _ hP
  apply Real.rpow_le_rpow_of_exponent_ge (by norm_num) (by norm_num)
  have h6 : ((f1 - pt) / 6 : ℚ) ≤ ((f2 - pt) / 6 : ℚ) :=
    (div_le_div_iff_of_pos_right (by norm_num)).mpr (by linarith)
  exact_mod_cast h6

theorem stepHours_pos {nh h : ℕ} (hh : h ∈ stepHours nh) : 0 < h := by
  rw [stepHours] at hh
  obtain ⟨k, -, rfl⟩ := List.mem_map.mp hh
  omega

theorem stepHours_pairwise (nh : ℕ) : (stepHours nh).Pairwise (· < ·) := by
  rw [stepHours]
  exact (List.pairwise_lt_range _).map _ (fun a b hab => by omega)

/-- C3 amended: on complete snapshots the output is the anchor point
(exactly the current time and unrounded current stage) followed by one point
per 6-hour step with strictly increasing timestamps; each step point carries
the piecewise stage rounded to two decimals: before the peak time the linear
interpolation from the current stage towards the peak (progress clamped at
1), at or after the peak time the peak multiplied by 0.99 raised to the
(possibly fractional) number of elapsed 6-hour steps since the peak; the
unrounded stages approach the peak monotonically before peak time (the
rounded ones monotonically in the corresponding direction) and decay
monotonically afterwards for a nonnegative peak. -/
theorem C3_amended_piecewise_interpolation_then_decay (gt gr : GaugeSnapshot)
    (t u ct : ℚ) (cs : ℝ) (nh : ℕ)
    (htr : stagesTruthy gt gr = true)
    (hts : gt.forecast_timestamp = TsField.parsed t)
    (hus : gr.forecast_timestamp = TsField.parsed u) :
    ∃ pts : List ForecastPoint,
      generate_forecast_points ⟨some gt, some gr⟩ ct cs nh = Except.ok pts ∧
      pts = { timestamp := ct, riverstage := cs, is_forecast := true } ::
        (stepHours nh).map (fun (h : ℕ) =>
          { timestamp := ct + (h : ℚ)
            riverstage := round2 (stepStage cs
              (estimate_hutsonville_stage (gt.forecast_stage.getD 0)
                (gr.forecast_stage.getD 0))
              ct (t + TERI3_TO_HUTSONVILLE_LAG_HOURS) (ct + (h : ℚ)))
            is_forecast := true }) ∧
      pts.head? = some { timestamp := ct, riverstage := cs, is_forecast := true } ∧
      pts.length = nh / 6 + 1 ∧
      List.Pairwise (fun p q => p.timestamp < q.timestamp) pts ∧
      (∀ f : ℚ, ct < f → f < t + TERI3_TO_HUTSONVILLE_LAG_HOURS →
        stepStage cs
          (estimate_hutsonville_stage (gt.forecast_stage.getD 0) (gr.forecast_stage.getD 0))
          ct (t + TERI3_TO_HUTSONVILLE_LAG_HOURS) f =
        cs + ((estimate_hutsonville_stage (gt.forecast_stage.getD 0)
            (gr.forecast_stage.getD 0)) - cs) *
          min 1 (((f - ct) / (t + TERI3_TO_HUTSONVILLE_LAG_HOURS - ct) : ℚ) : ℝ)) ∧
      (∀ f : ℚ, t + TERI3_TO_HUTSONVILLE_LAG_HOURS ≤ f →
        stepStage cs
          (estimate_hutsonville_stage (gt.forecast_stage.getD 0) (gr.forecast_stage.getD 0))
          ct (t + TERI3_TO_HUTSONVILLE_LAG_HOURS) f =
        (estimate_hutsonville_stage (gt.forecast_stage.getD 0) (gr.forecast_stage.getD 0)) *
          (0.99 : ℝ) ^ ((((f - (t + TERI3_TO_HUTSONVILLE_LAG_HOURS)) / 6 : ℚ) : ℝ))) ∧
      ((0.99 : ℝ) < 1) ∧
      (∀ f1 f2 : ℚ, ct < f1 → f1 ≤ f2 → f2 < t + TERI3_TO_HUTSONVILLE_LAG_HOURS →
        |(estimate_hutsonville_stage (gt.forecast_stage.getD 0) (gr.forecast_stage.getD 0)) -
            stepStage cs (estimate_hutsonville_stage (gt.forecast_stage.getD 0)
              (gr.forecast_stage.getD 0)) ct (t + TERI3_TO_HUTSONVILLE_LAG_HOURS) f2| ≤
          |(estimate_hutsonville_stage (gt.forecast_stage.getD 0) (gr.forecast_stage.getD 0)) -
            stepStage cs (estimate_hutsonville_stage (gt.forecast_stage.getD 0)
              (gr.forecast_stage.getD 0)) ct (t + TERI3_TO_HUTSONVILLE_LAG_HOURS) f1| ∧
        (cs ≤ estimate_hutsonville_stage (gt.forecast_stage.getD 0) (gr.forecast_stage.getD 0) →
          round2 (stepStage cs (estimate_hutsonville_stage (gt.forecast_stage.getD 0)
              (gr.forecast_stage.getD 0)) ct (t + TERI3_TO_HUTSONVILLE_LAG_HOURS) f1) ≤
          round2 (stepStage cs (estimate_hutsonville_stage (gt.forecast_stage.getD 0)
              (gr.forecast_stage.getD 0)) ct (t + TERI3_TO_HUTSONVILLE_LAG_HOURS) f2)) ∧
        (estimate_hutsonville_stage (gt.forecast_stage.getD 0) (gr.forecast_stage.getD 0) ≤ cs →
          round2 (stepStage cs (estimate_hutsonville_stage (gt.forecast_stage.getD 0)
              (gr.forecast_stage.getD 0)) ct (t + TERI3_TO_HUTSONVILLE_LAG_HOURS) f2) ≤
          round2 (stepStage cs (estimate_hutsonville_stage (gt.forecast_stage.getD 0)
              (gr.forecast_stage.getD 0)) ct (t + TERI3_TO_HUTSONVILLE_LAG_HOURS) f1))) ∧
      (∀ f1 f2 : ℚ, t + TERI3_TO_HUTSONVILLE_LAG_HOURS ≤ f1 → f1 ≤ f2 →
        0 ≤ estimate_hutsonville_stage (gt.forecast_stage.getD 0) (gr.forecast_stage.getD 0) →
        round2 (stepStage cs (estimate_hutsonville_stage (gt.forecast_stage.getD 0)
            (gr.forecast_stage.getD 0)) ct (t + TERI3_TO_HUTSONVILLE_LAG_HOURS) f2) ≤
        round2 (stepStage cs (estimate_hutsonville_stage (gt.forecast_stage.getD 0)
            (gr.forecast_stage.getD 0)) ct (t + TERI3_TO_HUTSONVILLE_LAG_HOURS) f1)) := by
  refine ⟨_, generate_complete gt gr ct cs nh htr t u (by rw [hts]; rfl) (by rw [hus]; rfl),
    rfl, rfl, ?_, ?_, ?_, ?_, by norm_num, ?_, ?_⟩
  · simp [stepHours]
  · refine List.pairwise_cons.mpr ⟨?_, ?_⟩
    · intro q hq
      obtain ⟨h, hh, rfl⟩ := List.mem_map.mp hq
      show ct < ct + (h : ℚ)
      have hp := stepHours_pos hh
      have hp' : (0 : ℚ) < (h : ℚ) := by exact_mod_cast hp
      linarith
    · refine (stepHours_pairwise nh).map _ ?_
      intro a b hab
      show ct + (a : ℚ) < ct + (b : ℚ)
      have hab' : (a : ℚ) < (b : ℚ) := by exact_mod_cast hab
      linarith
  · intro f h1 h2
    exact stepStage_interp _ _ _ _ _ h1 h2
  · intro f h1
    exact stepStage_decay _ _ _ _ _ h1
  · intro f1 f2 h1 h12 h2
    obtain ⟨hd, hr, hf⟩ := stepStage_interp_mono cs
      (estimate_hutsonville_stage (gt.forecast_stage.getD 0) (gr.forecast_stage.getD 0))
      ct (t + TERI3_TO_HUTSONVILLE_LAG_HOURS) h1 h12 h2
    exact ⟨hd, fun hcs => round2_mono (hr hcs), fun hcs => round2_mono (hf hcs)⟩
  · intro f1 f2 h1 h12 hP
    exact round2_mono (stepStage_decay_mono cs
      (estimate_hutsonville_stage (gt.forecast_stage.getD 0) (gr.forecast_stage.getD 0))
      ct (t + TERI3_TO_HUTSONVILLE_LAG_HOURS) h1 h12 hP)

theorem stagesTruthy_c3 :
    stagesTruthy ⟨some 11, some 14, TsField.parsed 0⟩ ⟨some 9, some 12, TsField.parsed 0⟩ =
      true := by
  rw [stagesTruthy]
  have h11 : decide ((11 : ℝ) = 0) = false := decide_eq_false (by norm_num)
  have h9 : decide ((9 : ℝ) = 0) = false := decide_eq_false (by norm_num)
  have h14 : decide ((14 : ℝ) = 0) = false := decide_eq_false (by norm_num)
  have h12 : decide ((12 : ℝ) = 0) = false := decide_eq_false (by norm_num)
  simp [truthyStage, h11, h9, h14, h12]

/-- C3 counterexample: with current stage 10.0 at time 0, upstream forecast
14.0 at time 0 (so peak time 18h, peak 12.05) and downstream forecast 12.0,
the 6-hour point is 10.68 — the rounded value — which differs from the exact
linear interpolation 10 + (12.05 - 10) * (6/18). -/
theorem C3_counterexample_points_are_rounded :
    generate_forecast_points
      ⟨some ⟨some 11, some 14, TsField.parsed 0⟩, some ⟨some 9, some 12, TsField.parsed 0⟩⟩
      0 10 6 =
      Except.ok [{ timestamp := 0, riverstage := 10, is_forecast := true },
                 { timestamp := 6, riverstage := 10.68, is_forecast := true }] ∧
    ((10.68 : ℝ) ≠ 10 + (12.05 - 10) * ((6 : ℝ) / 18)) := by
  constructor
  · rw [generate_complete ⟨some 11, some 14, TsField.parsed 0⟩
      ⟨some 9, some 12, TsField.parsed 0⟩ 0 10 6 stagesTruthy_c3 0 0 rfl rfl]
    rw [show stepHours 6 = [6] from rfl]
    simp only [List.map_cons, List.map_nil]
    have hstep : round2 (stepStage 10
        (estimate_hutsonville_stage ((some (14 : ℝ)).getD 0) ((some (12 : ℝ)).getD 0))
        0 (0 + TERI3_TO_HUTSONVILLE_LAG_HOURS) (0 + ((6 : ℕ) : ℚ))) = (10.68 : ℝ) := by
      rw [show (some (14 : ℝ)).getD 0 = (14 : ℝ) from rfl,
        show (some (12 : ℝ)).getD 0 = (12 : ℝ) from rfl, estimate_14_12,
        show (0 + TERI3_TO_HUTSONVILLE_LAG_HOURS : ℚ) = 18 from by
          rw [TERI3_TO_HUTSONVILLE_LAG_HOURS]; norm_num]
      rw [stepStage, if_pos (by norm_num), if_pos (by norm_num)]
      have hq : ((0 + ((6 : ℕ) : ℚ) - 0) / (18 - 0) : ℚ) = 1/3 := by norm_num
      rw [hq]
      have hmin : min (1 : ℝ) (((1/3 : ℚ) : ℝ)) = ((1/3 : ℚ) : ℝ) :=
        min_eq_right (by push_cast; norm_num)
      rw [hmin, round2, roundHalfEven]
      push_cast
      norm_num
    rw [hstep]
    norm_num [ForecastPoint.mk.injEq]
  · norm_num

theorem C3_witness :
    ∃ pts : List ForecastPoint,
      generate_forecast_points
        ⟨some ⟨some 11, some 14, TsField.parsed 0⟩, some ⟨some 9, some 12, TsField.parsed 0⟩⟩
        0 10 6 = Except.ok pts ∧ pts.length = 2 := by
  obtain ⟨pts, hok, -, -, hlen, -⟩ :=
    C3_amended_piecewise_interpolation_then_decay
      ⟨some 11, some 14, TsField.parsed 0⟩ ⟨some 9, some 12, TsField.parsed 0⟩
      0 0 0 10 6 stagesTruthy_c3 rfl rfl
  exact ⟨pts, hok, by rw [hlen]⟩
